import Mathlib

/-!
# Verification of the AI-Travel-Planner aggregation core

Shallow embedding of the repository's orchestration logic:

* `agents/iata_finder.py` — location-code resolution over the airport table;
* `agents/flight_finder.py` — flight-offer normalization and error taxonomy;
* `agents/hotel_finder.py` — candidate sampling, rate lookup, sort/truncate;
* `agents/weather_checker.py` — forecast-feed summarization;
* `travel_pipeline.py` — date handling, caching decorators, the aggregation
  run `vacation_plan` and its prompt composition.

External HTTP responses are inputs to the embedded functions; numeric JSON
amounts are modelled as `Nat`.
-/

/-! ## Calendar dates (`datetime.strptime`, `timedelta`, `strftime`) -/

/-- A Gregorian calendar date, as held by Python's `datetime`. -/
structure Date where
  year : Nat
  month : Nat
  day : Nat
deriving DecidableEq, Repr

/-- Gregorian leap-year rule (Python `calendar.isleap`). -/
def isLeap (y : Nat) : Bool :=
  (y % 4 == 0 && y % 100 != 0) || y % 400 == 0

/-- Number of days in month `m` of year `y`. -/
def daysInMonth (y m : Nat) : Nat :=
  if m = 2 then (if isLeap y then 29 else 28)
  else if m = 4 ∨ m = 6 ∨ m = 9 ∨ m = 11 then 30
  else 31

/-- The date is one `datetime` accepts: year ≥ 1, month in 1..12, day in range. -/
def ValidDate (dt : Date) : Prop :=
  1 ≤ dt.year ∧ 1 ≤ dt.month ∧ dt.month ≤ 12 ∧ 1 ≤ dt.day ∧
    dt.day ≤ daysInMonth dt.year dt.month

instance (dt : Date) : Decidable (ValidDate dt) := by
  unfold ValidDate; infer_instance

/-- Split a character list at every occurrence of `sep` (the semantics of
Python `str.split` with a one-character separator). -/
def splitChars (sep : Char) : List Char → List (List Char)
  | [] => [[]]
  | c :: rest =>
    match splitChars sep rest with
    | [] => [[]]
    | grp :: grps =>
      if c = sep then [] :: grp :: grps else (c :: grp) :: grps

/-- Read a non-empty run of decimal digits as a number. -/
def digitsToNat? (cs : List Char) : Option Nat :=
  if cs ≠ [] ∧ cs.all (fun c => c.isDigit) then
    some (cs.foldl (fun acc c => acc * 10 + (c.toNat - 48)) 0)
  else none

/-- `datetime.strptime(s, "%Y-%m-%d")`: three dash-separated all-digit
fields, the year exactly four digits, month and day one or two digits, and
the values a real calendar date (year ≥ 1, month 1..12, day within the
month). -/
def parseDate (s : String) : Option Date :=
  match splitChars '-' s.toList with
  | [ys, ms, ds] =>
    match digitsToNat? ys, digitsToNat? ms, digitsToNat? ds with
    | some y, some m, some d =>
      if ys.length = 4 ∧ 1 ≤ ms.length ∧ ms.length ≤ 2 ∧ 1 ≤ ds.length ∧
          ds.length ≤ 2 ∧ 1 ≤ y ∧ 1 ≤ m ∧ m ≤ 12 ∧ 1 ≤ d ∧
          d ≤ daysInMonth y m then
        some ⟨y, m, d⟩
      else none
    | _, _, _ => none
  | _ => none

/-- Successor day in the Gregorian calendar. -/
def nextDay (dt : Date) : Date :=
  if dt.day < daysInMonth dt.year dt.month then ⟨dt.year, dt.month, dt.day + 1⟩
  else if dt.month < 12 then ⟨dt.year, dt.month + 1, 1⟩
  else ⟨dt.year + 1, 1, 1⟩

/-- `start_date_obj + timedelta(days=n)`: `n` applications of the day successor. -/
def addDays (dt : Date) (n : Nat) : Date :=
  nextDay^[n] dt

/-- Left-pad a numeral to two digits (`strftime` `%m`/`%d`). -/
def pad2 (n : Nat) : String :=
  if n < 10 then "0" ++ toString n else toString n

/-- Left-pad a numeral to four digits (`strftime` `%Y`). -/
def pad4 (n : Nat) : String :=
  if n < 10 then "000" ++ toString n
  else if n < 100 then "00" ++ toString n
  else if n < 1000 then "0" ++ toString n
  else toString n

/-- `strftime("%Y-%m-%d")`. -/
def formatDate (dt : Date) : String :=
  pad4 dt.year ++ "-" ++ pad2 dt.month ++ "-" ++ pad2 dt.day

/-- Leap years strictly before year `y` (for `y ≥ 1`), written so the natural
subtraction never truncates. -/
def leapsBefore (y : Nat) : Nat :=
  (y - 1) / 4 + (y - 1) / 400 - (y - 1) / 100

/-- Days in months `1..m-1` of year `y`. -/
def daysBeforeMonth (y : Nat) : Nat → Nat
  | 0 => 0
  | m + 1 => daysBeforeMonth y m + (if m = 0 then 0 else daysInMonth y m)

/-- Proleptic Gregorian ordinal of a date (`date.toordinal`: 0001-01-01 ↦ 1). -/
def toOrdinal (dt : Date) : Nat :=
  365 * (dt.year - 1) + leapsBefore dt.year + daysBeforeMonth dt.year dt.month + dt.day

lemma one_le_daysInMonth (y m : Nat) : 1 ≤ daysInMonth y m := by
  unfold daysInMonth
  split_ifs <;> omega

lemma daysInMonth_le (y m : Nat) : daysInMonth y m ≤ 31 := by
  unfold daysInMonth
  split_ifs <;> omega

lemma validDate_of_parseDate {s : String} {dt : Date} (h : parseDate s = some dt) :
    ValidDate dt := by
  unfold parseDate at h
  split at h
  · split at h
    · split_ifs at h with hc
      cases h
      obtain ⟨h1, h2, h3, h4, h5, h6, h7, h8, h9, h10⟩ := hc
      exact ⟨h6, h7, h8, h9, h10⟩
    · exact absurd h (by simp)
  · exact absurd h (by simp)

lemma nextDay_valid {dt : Date} (h : ValidDate dt) : ValidDate (nextDay dt) := by
  obtain ⟨hy, hm1, hm2, hd1, hd2⟩ := h
  have g1 := one_le_daysInMonth dt.year (dt.month + 1)
  have g2 := one_le_daysInMonth (dt.year + 1) 1
  unfold nextDay
  split_ifs with h1 h2 <;> unfold ValidDate <;> dsimp only <;> omega

lemma isLeap_iff (y : Nat) :
    isLeap y = true ↔ ((y % 4 = 0 ∧ y % 100 ≠ 0) ∨ y % 400 = 0) := by
  unfold isLeap
  simp

lemma leapsBefore_succ {y : Nat} (hy : 1 ≤ y) :
    leapsBefore (y + 1) = leapsBefore y + (if isLeap y then 1 else 0) := by
  unfold leapsBefore
  by_cases hl : isLeap y = true
  · rw [if_pos hl]
    rw [isLeap_iff] at hl
    omega
  · rw [if_neg hl]
    rw [isLeap_iff] at hl
    push_neg at hl
    omega

lemma daysBeforeMonth_thirteen (y : Nat) :
    daysBeforeMonth y 13 = if isLeap y then 366 else 365 := by
  by_cases h : isLeap y <;>
    simp [daysBeforeMonth, daysInMonth, h]

lemma toOrdinal_nextDay {dt : Date} (h : ValidDate dt) :
    toOrdinal (nextDay dt) = toOrdinal dt + 1 := by
  obtain ⟨hy, hm1, hm2, hd1, hd2⟩ := h
  unfold nextDay toOrdinal
  split_ifs with h1 h2 <;> dsimp only
  · omega
  · -- month rollover: day = daysInMonth, month < 12
    have hstep : daysBeforeMonth dt.year (dt.month + 1) =
        daysBeforeMonth dt.year dt.month + daysInMonth dt.year dt.month := by
      show daysBeforeMonth dt.year dt.month +
        (if dt.month = 0 then 0 else daysInMonth dt.year dt.month) = _
      rw [if_neg (by omega)]
    rw [hstep]
    omega
  · -- year rollover: month = 12, day = 31
    have hm : dt.month = 12 := by omega
    rw [hm] at h1 hd2 ⊢
    have h13 : daysBeforeMonth dt.year 13 =
        daysBeforeMonth dt.year 12 + daysInMonth dt.year 12 := by
      show daysBeforeMonth dt.year 12 +
        (if (12 : Nat) = 0 then 0 else daysInMonth dt.year 12) = _
      rw [if_neg (by omega)]
    have h31 : daysInMonth dt.year 12 = 31 := by
      unfold daysInMonth; norm_num
    have hdb := daysBeforeMonth_thirteen dt.year
    have hls := leapsBefore_succ hy
    have hdb1 : daysBeforeMonth (dt.year + 1) 1 = 0 := by
      simp [daysBeforeMonth]
    rw [hdb1]
    by_cases hl : isLeap dt.year = true
    · rw [if_pos hl] at hdb hls
      omega
    · rw [if_neg hl] at hdb hls
      omega

lemma toOrdinal_addDays {dt : Date} (h : ValidDate dt) (n : Nat) :
    toOrdinal (addDays dt n) = toOrdinal dt + n ∧ ValidDate (addDays dt n) := by
  induction n with
  | zero => exact ⟨rfl, h⟩
  | succ k ih =>
    have hstep : addDays dt (k + 1) = nextDay (addDays dt k) := by
      unfold addDays
      exact Function.iterate_succ_apply' nextDay k dt
    rw [hstep]
    refine ⟨?_, nextDay_valid ih.2⟩
    rw [toOrdinal_nextDay ih.2, ih.1]
    omega

/-! ## Location resolver (`agents/iata_finder.py`) -/

/-- ASCII lower-casing of one character (`str.lower()` on the code points the
airport table uses). -/
def lowerChar (c : Char) : Char :=
  if 'A' ≤ c ∧ c ≤ 'Z' then Char.ofNat (c.toNat + 32) else c

/-- `str.lower()`. -/
def lowerStr (s : String) : String :=
  String.mk (s.toList.map lowerChar)

/-- One row of `data/airport-codes.csv` as pandas sees it: `municipality`,
`iata_code` and `type` may be NaN (`none`). -/
structure AirportRow where
  municipality : Option String
  iata_code : Option String
  type : Option String
  iso_country : String
deriving DecidableEq, Repr

/-- A row after the module-level preparation (all NaNs filled). -/
structure AirportEntry where
  municipality : String
  iata_code : String
  type : String
  iso_country : String
deriving DecidableEq, Repr

/-- Position of an entry type in `airport_type_order`; pandas places values
outside the `Categorical`'s categories (NaN after coding) last. -/
def typeRank (t : String) : Nat :=
  if t = "city_code" then 0
  else if t = "large_airport" then 1
  else if t = "medium_airport" then 2
  else if t = "small_airport" then 3
  else 4

/-- Module-level preparation of `df_airports`: drop rows without an IATA code,
drop `type == 'closed'`, fill missing municipality with `''`, treat a missing
type as `'city_code'`, then sort by the categorical type order. -/
def prepareAirports (rows : List AirportRow) : List AirportEntry :=
  let rows := rows.filter (fun r => r.iata_code.isSome)
  let rows := rows.filter (fun r => r.type ≠ some "closed")
  let entries := rows.map (fun r =>
    { municipality := r.municipality.getD ""
      iata_code := r.iata_code.getD ""
      type := r.type.getD "city_code"
      iso_country := r.iso_country : AirportEntry })
  List.insertionSort (fun a b => typeRank a.type ≤ typeRank b.type) entries

/-- The `{iata, country}` success payload of `get_location_codes`. -/
structure LocCodes where
  iata : String
  country : String
deriving DecidableEq, Repr

/-- Result of `get_location_codes`: the codes dict or the error dict. -/
inductive LocResult where
  | ok (codes : LocCodes)
  | err (msg : String)
deriving DecidableEq, Repr

/-- `get_location_codes`: filter the prepared table by case-insensitive
municipality match and take the first row, else the NotFound error dict. -/
def get_location_codes (city_name : String) (df : List AirportEntry) : LocResult :=
  let matched := df.filter (fun e => lowerStr e.municipality = lowerStr city_name)
  match matched with
  | [] => .err ("Could not find location codes for " ++ city_name ++ " in the local database.")
  | m :: _ => .ok { iata := m.iata_code, country := m.iso_country }

/-! ## Flight adapter (`agents/flight_finder.py`) -/

/-- A raw Amadeus segment (the fields `search_flights` reads). -/
structure Segment where
  depCode : String
  arrCode : String
  depAt : String
  arrAt : String
  carrierCode : String
  number : String
deriving DecidableEq, Repr

/-- A raw Amadeus itinerary: its own duration plus its segments. -/
structure RawItinerary where
  duration : String
  segments : List Segment
deriving DecidableEq, Repr

/-- A raw Amadeus flight offer (price modelled as a `Nat` amount). -/
structure Offer where
  total_price : Nat
  itineraries : List RawItinerary
deriving DecidableEq, Repr

/-- A normalized segment dict built by `search_flights`. -/
structure SegmentInfo where
  fromCode : String
  toCode : String
  departure : String
  arrival : String
  carrier : String
  flight_number : String
  duration : String
deriving DecidableEq, Repr

/-- A simplified flight: normalized itineraries plus the total price. -/
structure SimplifiedFlight where
  itineraries : List (List SegmentInfo)
  total_price : Nat
deriving DecidableEq, Repr

/-- The provider either returns offer data or raises a `ResponseError`
rendered as a string. -/
inductive AmadeusResponse where
  | ok (offers : List Offer)
  | raised (errorText : String)
deriving DecidableEq, Repr

/-- What `search_flights` returns: a list (possibly empty) or the error dict. -/
inductive FlightsResult where
  | list (flights : List SimplifiedFlight)
  | errdict (msg : String)
deriving DecidableEq, Repr

/-- Does the character list start with `pat`? -/
def listStartsWith : List Char → List Char → Bool
  | _, [] => true
  | [], _ :: _ => false
  | c :: cs, p :: ps => c = p && listStartsWith cs ps

/-- `pat in s` for strings (Python substring test). -/
def containsSubstr (s pat : String) : Bool :=
  (List.range (s.toList.length + 1)).any
    (fun i => listStartsWith (s.toList.drop i) pat.toList)

/-- Normalization of one itinerary: every segment dict gets the
itinerary-level `duration`. -/
def simplifyItinerary (it : RawItinerary) : List SegmentInfo :=
  it.segments.map (fun s =>
    { fromCode := s.depCode
      toCode := s.arrCode
      departure := s.depAt
      arrival := s.arrAt
      carrier := s.carrierCode
      flight_number := s.number
      duration := it.duration : SegmentInfo })

/-- Normalization of one offer. -/
def simplifyOffer (o : Offer) : SimplifiedFlight :=
  { itineraries := o.itineraries.map simplifyItinerary
    total_price := o.total_price }

/-- `search_flights`: on success map every offer through the simplifier; on a
`ResponseError` whose text mentions `NO_FARE_APPLICABLE` or
`NO_COMBINABLE_FARES` return the empty list, otherwise the error dict. -/
def search_flights (resp : AmadeusResponse) : FlightsResult :=
  match resp with
  | .ok offers => .list (offers.map simplifyOffer)
  | .raised e =>
    if containsSubstr e "NO_FARE_APPLICABLE" || containsSubstr e "NO_COMBINABLE_FARES" then
      .list []
    else
      .errdict ("Error fetching flights: " ++ e)

/-! ## Hotel adapter (`agents/hotel_finder.py`) -/

/-- One hotel dict from the LiteAPI city search (`data` array). -/
structure RawHotel where
  id : String
  name : String
  address : String
  city : String
  country : String
  rating : Nat
  reviewCount : Nat
  main_photo : String
  website : String
  hotelDescription : String
  stars : Nat
deriving DecidableEq, Repr

/-- The hotel dict `get_hotels` assembles for a candidate with a resolved rate. -/
structure HotelData where
  name : String
  address : String
  city : String
  country : String
  rating : Nat
  reviewCount : Nat
  main_photo : String
  website : String
  price : Nat
  currency : String
  description : String
  stars : Nat
deriving DecidableEq, Repr

/-- What `get_hotels` returns: the sorted list or the error dict. -/
inductive HotelsResult where
  | list (hotels : List HotelData)
  | errdict (msg : String)
deriving DecidableEq, Repr

/-- Assemble the per-hotel dict from the candidate and its resolved price. -/
def mkHotelData (h : RawHotel) (price : Nat) (currency : String) : HotelData :=
  { name := h.name
    address := h.address
    city := h.city
    country := h.country
    rating := h.rating
    reviewCount := h.reviewCount
    main_photo := h.main_photo
    website := h.website
    price := price
    currency := currency
    description := h.hotelDescription
    stars := h.stars }

/-- `get_hotels` over the provider's city-search payload `hotels_data` and a
rate-lookup oracle `rate` (the nested extraction of
`retailRate.total[0].amount`, `none` when any step is missing). Returns the
result together with the ids whose rates were requested: the loop walks
`hotels_data[:3]`, posts one rate request per candidate, silently skips a
candidate whose price stays `None`, then sorts by price and truncates to
`top_n`. The error dict is produced only when `hotels_data` is empty. -/
def get_hotels (hotels_data : List RawHotel) (rate : String → Option Nat)
    (top_n : Nat) (currency : String) : HotelsResult × List String :=
  if hotels_data = [] then
    (.errdict "No hotels found for the initial search.", [])
  else
    let candidates := hotels_data.take 3
    let lookups := candidates.map (fun h => h.id)
    let hotels := candidates.filterMap (fun h =>
      (rate h.id).map (fun p => mkHotelData h p currency))
    (.list ((List.insertionSort (fun a b => a.price ≤ b.price) hotels).take top_n),
      lookups)

/-! ## Weather adapter (`agents/weather_checker.py`) -/

/-- One reading of the forecast feed (`weather_data["list"]`): the timestamp
text `dt_txt`, `main.temp` (tenths of a degree, to keep amounts integral) and
the first weather `description`. -/
structure WeatherEntry where
  dt_txt : String
  temp : Int
  description : String
deriving DecidableEq, Repr

/-- `entry["dt_txt"].split(" ")[0]` — the calendar-date part of a reading. -/
def entryDate (e : WeatherEntry) : String :=
  String.mk ((splitChars ' ' e.dt_txt.toList).headD [])

/-- The loop of step 3 of `get_weather_forecast`: walk the feed keeping the
first reading of each date not yet seen, and break as soon as three readings
were kept. -/
def summarizeAux : List WeatherEntry → List String → List WeatherEntry → List WeatherEntry
  | [], _, acc => acc
  | e :: rest, seen, acc =>
    let p := if entryDate e ∈ seen then (seen, acc)
             else (entryDate e :: seen, acc ++ [e])
    if p.2.length ≥ 3 then p.2 else summarizeAux rest p.1 p.2

/-- The readings `get_weather_forecast` turns into `forecast_summary` lines. -/
def forecastSummary (feed : List WeatherEntry) : List WeatherEntry :=
  summarizeAux feed [] []

/-- The rendered line for one kept reading. -/
def forecastLine (e : WeatherEntry) : String :=
  entryDate e ++ ": " ++ toString e.temp ++ "°C, " ++ e.description

/-! ## Result cache (`st.cache_data` in `travel_pipeline.py`) -/

/-- The in-memory cache for one wrapped function: key, stored outcome, store
time (seconds). -/
structure CacheState (κ β : Type) where
  entries : List (κ × β × Nat)
deriving DecidableEq, Repr

/-- Look up `k` at time `now`: a stored entry answers while `now` is within
`ttl` of its store time. -/
def lookupCache [DecidableEq κ] (c : CacheState κ β) (k : κ) (now ttl : Nat) :
    Option β :=
  match c.entries.find? (fun e => decide (e.1 = k)) with
  | some e => if now < e.2.2 + ttl then some e.2.1 else none
  | none => none

/-- One call through a `@st.cache_data(ttl=...)` wrapper: a hit returns the
stored outcome without invoking `f`; a miss invokes `f`, stores whatever it
returned (success or error dict alike) and returns it. The `Bool` records
whether the wrapped function was invoked. -/
def cachedCall [DecidableEq κ] (f : κ → β) (ttl : Nat) (c : CacheState κ β)
    (k : κ) (now : Nat) : β × CacheState κ β × Bool :=
  match lookupCache c k now ttl with
  | some v => (v, c, false)
  | none => (f k, ⟨(k, f k, now) :: c.entries⟩, true)

/-- `@st.cache_data(ttl=3600)` on `cached_search_flights`. -/
def flightsCacheTTL : Nat := 3600

/-- `@st.cache_data(ttl=3600)` on `cached_get_hotels`. -/
def hotelsCacheTTL : Nat := 3600

/-- `@st.cache_data(ttl=3600)` on `cached_get_weather_forecast`. -/
def weatherCacheTTL : Nat := 3600

/-- `@st.cache_data(ttl=3600)` on `cached_get_tourist_attractions_by_city`. -/
def attractionsCacheTTL : Nat := 3600

/-- `@st.cache_data(ttl=86400)` on `cached_get_location_codes`. -/
def locationCacheTTL : Nat := 86400

/-! ## Attraction adapter result (`agents/geoapify_agent.py`) -/

/-- One attraction dict in the adapter's `results` list (the pipeline reads
only `name`; `address` kept for completeness). -/
structure Attraction where
  name : String
  address : String
deriving DecidableEq, Repr

/-- `get_tourist_attractions_by_city` returns `{"results": [...]}` or
`{"error": ...}`. -/
inductive AttractionsResult where
  | results (l : List Attraction)
  | err (msg : String)
deriving DecidableEq, Repr

/-! ## Aggregation run (`travel_pipeline.py`, `vacation_plan`) -/

/-- The outcomes the five (cached) agent calls would deliver for this run:
`vacation_plan` consumes provider results, it does not produce them. -/
structure Env where
  location : LocResult
  flights : FlightsResult
  hotels : HotelsResult
  weather : String
  attractions : AttractionsResult
deriving DecidableEq, Repr

/-- One call to a cached resolver/adapter wrapper, with the arguments the
pipeline passes. -/
inductive AgentCall where
  | locationCall (city_name : String)
  | flightCall (origin destination departure_date return_date : String)
      (adults top_n : Nat)
  | hotelCall (city country checkin checkout : String)
      (adults children top_n : Nat)
  | weatherCall (city : String)
  | attractionCall (city : String) (limit : Nat)
deriving DecidableEq, Repr

/-- The interpolated pieces of the generation prompt. -/
structure PromptParts where
  vacation_type : String
  destination_city : String
  adults : Nat
  children : Nat
  duration : Nat
  start_date : String
  budget_eur : Nat
  origin_iata : String
  destination_iata : String
  flight_details : String
  hotel_details : String
  weather : String
  attraction_lines : List String
deriving DecidableEq, Repr

/-- How one `vacation_plan` run ends: an early-return error string, an
uncaught `IndexError` while interpolating the prompt f-string, or reaching
`model.generate_content` with the composed prompt. -/
inductive PlanOutcome where
  | errorMsg (s : String)
  | indexError
  | generated (parts : PromptParts)
deriving DecidableEq, Repr

/-- The line `f"  - Option {i+1}: ..."` for one flight; `none` when
`f['itineraries'][0]` would raise. Stops are `len(itineraries[0]) - 1`. -/
def flightLine (i : Nat) (f : SimplifiedFlight) : Option String :=
  match f.itineraries with
  | [] => none
  | it0 :: _ =>
    some ("  - Option " ++ toString (i + 1) ++ ": " ++ toString f.total_price ++
      " EUR, Stops: " ++ toString ((it0.length : Int) - 1))

/-- Map `flightLine` over the price-sorted flights, failing if any line fails. -/
def flightLines (fs : List SimplifiedFlight) : Option (List String) :=
  (List.insertionSort (fun a b => a.total_price ≤ b.total_price) fs).enum.mapM
    (fun p => flightLine p.1 p.2)

/-- The `flight_details` text: the default placeholder unless the flights
value is a non-empty list, in which case the sorted option lines (a `none`
models the `IndexError` on a flight without itineraries). -/
def flightDetails (flights : FlightsResult) : Option String :=
  match flights with
  | .errdict _ => some "No flights found or an error occurred."
  | .list [] => some "No flights found or an error occurred."
  | .list fs => (flightLines fs).map (fun ls => String.intercalate "\n" ls)

/-- The `hotel_details` text: the default placeholder unless the hotels value
is a non-empty list. -/
def hotelDetails (hotels : HotelsResult) : String :=
  match hotels with
  | .errdict _ => "No hotels found or an error occurred."
  | .list [] => "No hotels found or an error occurred."
  | .list hs => String.intercalate "\n" (hs.map (fun h =>
      "  - " ++ h.name ++ ", Address: " ++ h.address ++ ", Price: " ++
        toString h.price ++ " " ++ h.currency))

/-- The `attraction_list` variable: six generic placeholders, overwritten by
the adapter's name list whenever `"results"` is present and non-empty. -/
def attractionList (destination_city : String) (res : AttractionsResult) :
    List String :=
  let placeholders := (List.range 6).map (fun i =>
    "Popular attraction in " ++ destination_city ++ " #" ++ toString (i + 1))
  match res with
  | .err _ => placeholders
  | .results [] => placeholders
  | .results l => l.map (fun a => a.name)

/-- `vacation_plan`: the aggregation run. Returns how the run ends together
with the cached agent calls it made, in order. -/
def vacation_plan (model : Bool) (origin_iata destination_city vacation_type : String)
    (adults children duration : Nat) (start_date : String) (budget_eur : Nat)
    (env : Env) : PlanOutcome × List AgentCall :=
  if !model then (.errorMsg "Error: Gemini API key not configured.", [])
  else
    match parseDate start_date with
    | none => (.errorMsg "Error: Invalid date format provided.", [])
    | some start_date_obj =>
      let return_date := formatDate (addDays start_date_obj duration)
      match env.location with
      | .err e =>
        (.errorMsg ("Could not generate plan. " ++ e),
          [.locationCall destination_city])
      | .ok codes =>
        let destination_iata := codes.iata
        let destination_country_code := codes.country
        let callsF : List AgentCall :=
          [.locationCall destination_city,
           .flightCall origin_iata destination_iata start_date return_date adults 5]
        match flightDetails env.flights with
        | none => (.indexError, callsF)
        | some flight_details =>
          let callsH := callsF ++
            [.hotelCall destination_city destination_country_code start_date
              return_date adults children 5]
          let hotel_details := hotelDetails env.hotels
          let callsW := callsH ++ [.weatherCall destination_city]
          let weather := env.weather
          let callsA := callsW ++ [.attractionCall destination_city 6]
          let attraction_list := attractionList destination_city env.attractions
          match attraction_list.get? 0, attraction_list.get? 1,
              attraction_list.get? 2, attraction_list.get? 3,
              attraction_list.get? 4, attraction_list.get? 5 with
          | some a0, some a1, some a2, some a3, some a4, some a5 =>
            (.generated
              { vacation_type := vacation_type
                destination_city := destination_city
                adults := adults
                children := children
                duration := duration
                start_date := start_date
                budget_eur := budget_eur
                origin_iata := origin_iata
                destination_iata := destination_iata
                flight_details := flight_details
                hotel_details := hotel_details
                weather := weather
                attraction_lines := [a0, a1, a2, a3, a4, a5] }, callsA)
          | _, _, _, _, _, _ => (.indexError, callsA)

/-- The prompt f-string of `vacation_plan`, rendered from its interpolated
pieces. -/
def promptText (p : PromptParts) : String :=
  "\n    You are a travel agent. A user wants to go on a " ++ p.vacation_type ++
  " vacation to " ++ p.destination_city ++ ".\n    They are traveling with " ++
  toString p.adults ++ " adults and " ++ toString p.children ++
  " children. The trip will last " ++ toString p.duration ++
  " days,\n    starting on " ++ p.start_date ++ ". The budget is " ++
  toString p.budget_eur ++ " EUR.\n\n    Here's some information to help you" ++
  " create a detailed vacation plan. If any information says 'No data found'" ++
  " or 'unavailable', you must state that you could not find specific options" ++
  " but should still suggest a reasonable budget for that category based on" ++
  " the overall trip budget.\n\n    Flight Options from " ++ p.origin_iata ++
  " to " ++ p.destination_iata ++ ":\n    " ++ p.flight_details ++
  "\n\n    Hotel Options in " ++ p.destination_city ++ ":\n    " ++
  p.hotel_details ++ "\n    \n    Weather Forecast:\n    " ++ p.weather ++
  "\n\n    Based on this information, generate ONLY the following sections" ++
  " with the exact formatting as shown below. Do not include any extra text," ++
  " disclaimers, or explanations.\n\n    **Destination Overview: " ++
  p.destination_city ++ "**\n\n    **Flights**\n    Flight Option 1:**" ++
  " [Price] EUR per person (Total: [Total Price] EUR), with [Number]" ++
  " stop(s).\n\n    **Accommodation**\n    Hotel:** [If a hotel was found," ++
  " list its name. If not, state 'A suitable hotel within your budget.']\n" ++
  "    Address:** [If a hotel was found, list its address. If not, state" ++
  " 'N/A']\n    Price:** [If a hotel was found, list its price. If not," ++
  " estimate a reasonable price for " ++ toString p.duration ++
  " nights based on the total budget.]\n\n    **Weather**\n    [Provide a" ++
  " brief summary of the weather based on the forecast data provided.]\n\n" ++
  "    **Top Attractions**\n" ++
  String.intercalate "\n" (p.attraction_lines.map (fun a => "    *   " ++ a)) ++
  "\n\n    **Cost Breakdown**\n    Flights:** [Flight Cost] EUR\n" ++
  "    Accommodation:** [Accommodation Cost] EUR\n    Food:** [Food Cost]" ++
  " EUR\n    Activities/Entrance Fees:** [Activities Cost] EUR\n" ++
  "    Transportation:** [Transportation Cost] EUR\n    Buffer/Miscellaneous:**" ++
  " [Buffer Cost] EUR\n\n    **Total Estimated Cost:** [Total Cost] EUR\n    "

/-! ## Pipeline helper lemmas -/

lemma attractionList_err_length (city msg : String) :
    (attractionList city (.err msg)).length = 6 := by
  simp [attractionList]

lemma attractionList_nil_length (city : String) :
    (attractionList city (.results [])).length = 6 := by
  simp [attractionList]

/-- Fully reduced shape of one aggregation run that reaches the generation
call: the resolver succeeded, the flight-details f-string did not raise, and
the attraction list is long enough for the six indexed slots. -/
lemma vacation_plan_run (origin_iata destination_city vacation_type : String)
    (adults children duration : Nat) (start_date : String) (budget_eur : Nat)
    (env : Env) (dobj : Date) (codes : LocCodes) (fd : String)
    (hp : parseDate start_date = some dobj)
    (hloc : env.location = .ok codes)
    (hfd : flightDetails env.flights = some fd)
    (hlen : 6 ≤ (attractionList destination_city env.attractions).length) :
    vacation_plan true origin_iata destination_city vacation_type adults children
      duration start_date budget_eur env =
      (.generated
        { vacation_type := vacation_type
          destination_city := destination_city
          adults := adults
          children := children
          duration := duration
          start_date := start_date
          budget_eur := budget_eur
          origin_iata := origin_iata
          destination_iata := codes.iata
          flight_details := fd
          hotel_details := hotelDetails env.hotels
          weather := env.weather
          attraction_lines := (attractionList destination_city env.attractions).take 6 },
       [.locationCall destination_city,
        .flightCall origin_iata codes.iata start_date
          (formatDate (addDays dobj duration)) adults 5,
        .hotelCall destination_city codes.country start_date
          (formatDate (addDays dobj duration)) adults children 5,
        .weatherCall destination_city,
        .attractionCall destination_city 6]) := by
  rcases hshape : attractionList destination_city env.attractions with
      _ | ⟨a0, _ | ⟨a1, _ | ⟨a2, _ | ⟨a3, _ | ⟨a4, _ | ⟨a5, rest⟩⟩⟩⟩⟩⟩ <;>
    rw [hshape] at hlen <;> simp only [List.length_nil, List.length_cons] at hlen
  · omega
  · omega
  · omega
  · omega
  · omega
  · omega
  · unfold vacation_plan
    simp only [Bool.not_true, Bool.false_eq_true, if_false, hp, hloc, hfd, hshape]
    rfl

/-- The call log of a run past a successful resolution and flight rendering
is the full five-call sequence, whatever the attraction data. -/
lemma vacation_plan_calls (origin_iata destination_city vacation_type : String)
    (adults children duration : Nat) (start_date : String) (budget_eur : Nat)
    (env : Env) (dobj : Date) (codes : LocCodes) (fd : String)
    (hp : parseDate start_date = some dobj)
    (hloc : env.location = .ok codes)
    (hfd : flightDetails env.flights = some fd) :
    (vacation_plan true origin_iata destination_city vacation_type adults children
      duration start_date budget_eur env).2 =
      [.locationCall destination_city,
       .flightCall origin_iata codes.iata start_date
         (formatDate (addDays dobj duration)) adults 5,
       .hotelCall destination_city codes.country start_date
         (formatDate (addDays dobj duration)) adults children 5,
       .weatherCall destination_city,
       .attractionCall destination_city 6] := by
  unfold vacation_plan
  simp only [Bool.not_true, Bool.false_eq_true, if_false, hp, hloc, hfd]
  split <;> rfl

/-! ## Claim theorems -/

/-- C5: within the TTL window a second call with the same key returns the
stored outcome (error values included, since the wrapper stores whatever the
call returned) without invoking the wrapped function again; the four provider
wrappers carry a one-hour TTL and the location wrapper a one-day TTL. -/
theorem c5_cache_idempotent :
    (∀ (κ β : Type) [DecidableEq κ] (f : κ → β) (c0 : CacheState κ β)
        (k : κ) (t0 t1 ttl : Nat),
      lookupCache c0 k t0 ttl = none → t1 < t0 + ttl →
      cachedCall f ttl (cachedCall f ttl c0 k t0).2.1 k t1 =
        ((cachedCall f ttl c0 k t0).1, (cachedCall f ttl c0 k t0).2.1, false)) ∧
    flightsCacheTTL = 3600 ∧ hotelsCacheTTL = 3600 ∧ weatherCacheTTL = 3600 ∧
    attractionsCacheTTL = 3600 ∧ locationCacheTTL = 86400 := by
  refine ⟨?_, rfl, rfl, rfl, rfl, rfl⟩
  intro κ β _ f c0 k t0 t1 ttl hmiss hwin
  have h1 : cachedCall f ttl c0 k t0 = (f k, ⟨(k, f k, t0) :: c0.entries⟩, true) := by
    unfold cachedCall
    rw [hmiss]
  rw [h1]
  have hhit : lookupCache (⟨(k, f k, t0) :: c0.entries⟩ : CacheState κ β) k t1 ttl =
      some (f k) := by
    unfold lookupCache
    rw [List.find?_cons_of_pos _ (by simp)]
    exact if_pos hwin
  unfold cachedCall
  rw [hhit]

/-- Witness for C5 at concrete inputs, with a stored error value. -/
theorem c5_cache_idempotent_witness :
    lookupCache (⟨[]⟩ : CacheState String FlightsResult) "LIS" 7 flightsCacheTTL
        = none ∧
    (100 : Nat) < 7 + flightsCacheTTL ∧
    cachedCall (fun _ => FlightsResult.errdict "rate limited") flightsCacheTTL
        (cachedCall (fun _ => FlightsResult.errdict "rate limited")
          flightsCacheTTL ⟨[]⟩ "LIS" 7).2.1 "LIS" 100 =
      ((cachedCall (fun _ => FlightsResult.errdict "rate limited")
          flightsCacheTTL ⟨[]⟩ "LIS" 7).1,
        (cachedCall (fun _ => FlightsResult.errdict "rate limited")
          flightsCacheTTL ⟨[]⟩ "LIS" 7).2.1, false) :=
  ⟨rfl, by decide,
    c5_cache_idempotent.1 String FlightsResult
      (fun _ => FlightsResult.errdict "rate limited") ⟨[]⟩ "LIS" 7 100
      flightsCacheTTL rfl (by decide)⟩

/-- C10: a start date that `strptime` rejects makes `vacation_plan` return
the fixed invalid-date error string without a single resolver or adapter
call (hence no cache entry is touched). -/
theorem c10_invalid_date_aborts (origin_iata destination_city vacation_type : String)
    (adults children duration budget_eur : Nat) (start_date : String) (env : Env)
    (h : parseDate start_date = none) :
    vacation_plan true origin_iata destination_city vacation_type adults children
      duration start_date budget_eur env =
      (.errorMsg "Error: Invalid date format provided.", []) := by
  unfold vacation_plan
  simp [h]

/-- Witness for C10 at a concrete malformed date. -/
theorem c10_invalid_date_aborts_witness :
    parseDate "20-10-2025" = none ∧
    vacation_plan true "ARN" "Lisbon" "beach" 2 0 7 "20-10-2025" 1500
      { location := .ok ⟨"LIS", "PT"⟩, flights := .list [],
        hotels := .errdict "x", weather := "sunny",
        attractions := .err "x" } =
      (.errorMsg "Error: Invalid date format provided.", []) :=
  ⟨by decide,
    c10_invalid_date_aborts "ARN" "Lisbon" "beach" 2 0 7 1500 "20-10-2025"
      { location := .ok ⟨"LIS", "PT"⟩, flights := .list [],
        hotels := .errdict "x", weather := "sunny",
        attractions := .err "x" } (by decide)⟩

/-- The attraction data returned for the C1 failing input: the adapter found
three real attractions, fewer than the six requested. -/
def c1Attractions : AttractionsResult :=
  .results [⟨"Belém Tower", "Av. Brasília"⟩, ⟨"Alfama", "Alfama"⟩,
    ⟨"LX Factory", "R. Rodrigues de Faria 103"⟩]

/-- The environment of the C1 failing run. -/
def c1Env : Env :=
  { location := .ok ⟨"LIS", "PT"⟩
    flights := .list []
    hotels := .errdict "No hotels found for the initial search."
    weather := "sunny"
    attractions := c1Attractions }

/-- C1 (failing input): with three attractions found, the code replaces — it
does not pad — the six placeholders, so the list has three entries, position
five is out of bounds, and the run dies in an `IndexError` instead of
composing a prompt. -/
theorem c1_attraction_list_not_padded :
    (attractionList "Lisbon" c1Env.attractions).length = 3 ∧
    (attractionList "Lisbon" c1Env.attractions).get? 5 = none ∧
    (vacation_plan true "ARN" "Lisbon" "beach" 2 0 7 "2025-10-20" 1500 c1Env).1 =
      .indexError := by
  refine ⟨by decide, by decide, ?_⟩
  decide

/-- C8: each flight offer normalized by `search_flights` gives every segment
of its `i`-th itinerary the `i`-th raw itinerary's own duration — one shared
value per itinerary, copied from the itinerary level. -/
theorem c8_itinerary_duration_on_segments (offers : List Offer)
    (fs : List SimplifiedFlight) (f : SimplifiedFlight)
    (hs : search_flights (.ok offers) = .list fs) (hf : f ∈ fs) :
    ∃ o ∈ offers, f = simplifyOffer o ∧
      ∀ (i : Nat) (segs : List SegmentInfo),
        f.itineraries.get? i = some segs →
        ∃ it : RawItinerary, o.itineraries.get? i = some it ∧
          ∀ s ∈ segs, s.duration = it.duration := by
  have hfs : fs = offers.map simplifyOffer := by
    unfold search_flights at hs
    exact (FlightsResult.list.injEq _ _ ▸ hs.symm)
  subst hfs
  obtain ⟨o, ho, rfl⟩ := List.mem_map.mp hf
  refine ⟨o, ho, rfl, ?_⟩
  intro i segs hsegs
  unfold simplifyOffer at hsegs
  simp only [List.get?_map] at hsegs
  obtain ⟨it, hit, hmap⟩ := Option.map_eq_some'.mp hsegs
  refine ⟨it, hit, ?_⟩
  intro s hsmem
  rw [← hmap] at hsmem
  unfold simplifyItinerary at hsmem
  obtain ⟨s0, _, rfl⟩ := List.mem_map.mp hsmem
  rfl

/-- Witness for C8 at a concrete two-segment offer. -/
theorem c8_itinerary_duration_on_segments_witness :
    search_flights (.ok [⟨550,
        [⟨"PT5H", [⟨"ARN", "CDG", "t1", "t2", "SK", "571"⟩,
                   ⟨"CDG", "LIS", "t3", "t4", "AF", "1024"⟩]⟩]⟩]) =
      .list [simplifyOffer ⟨550,
        [⟨"PT5H", [⟨"ARN", "CDG", "t1", "t2", "SK", "571"⟩,
                   ⟨"CDG", "LIS", "t3", "t4", "AF", "1024"⟩]⟩]⟩] ∧
    ∃ o ∈ [(⟨550,
        [⟨"PT5H", [⟨"ARN", "CDG", "t1", "t2", "SK", "571"⟩,
                   ⟨"CDG", "LIS", "t3", "t4", "AF", "1024"⟩]⟩]⟩ : Offer)],
      simplifyOffer (⟨550,
        [⟨"PT5H", [⟨"ARN", "CDG", "t1", "t2", "SK", "571"⟩,
                   ⟨"CDG", "LIS", "t3", "t4", "AF", "1024"⟩]⟩]⟩ : Offer) =
        simplifyOffer o ∧
      ∀ (i : Nat) (segs : List SegmentInfo),
        (simplifyOffer (⟨550,
          [⟨"PT5H", [⟨"ARN", "CDG", "t1", "t2", "SK", "571"⟩,
                     ⟨"CDG", "LIS", "t3", "t4", "AF", "1024"⟩]⟩]⟩ :
            Offer)).itineraries.get? i = some segs →
        ∃ it : RawItinerary, o.itineraries.get? i = some it ∧
          ∀ s ∈ segs, s.duration = it.duration :=
  ⟨rfl,
    c8_itinerary_duration_on_segments _ _ _ rfl (by decide)⟩

/-- C4: a provider `ResponseError` mentioning `NO_FARE_APPLICABLE` or
`NO_COMBINABLE_FARES` is normalized to the empty list; any other provider
error becomes the error dictionary (a different constructor, so callers can
tell the two apart); and an empty flight list makes the aggregation run keep
the "No flights found" placeholder and still reach generation. -/
theorem c4_no_fare_degrades_gracefully :
    (∀ e : String,
      (containsSubstr e "NO_FARE_APPLICABLE" = true ∨
        containsSubstr e "NO_COMBINABLE_FARES" = true) →
      search_flights (.raised e) = .list []) ∧
    (∀ e : String,
      containsSubstr e "NO_FARE_APPLICABLE" = false →
      containsSubstr e "NO_COMBINABLE_FARES" = false →
      search_flights (.raised e) = .errdict ("Error fetching flights: " ++ e)) ∧
    (∀ (msg : String) (l : List SimplifiedFlight),
      FlightsResult.errdict msg ≠ FlightsResult.list l) ∧
    (∀ (origin_iata destination_city vacation_type : String)
       (adults children duration budget_eur : Nat) (start_date : String)
       (env : Env) (dobj : Date) (codes : LocCodes),
      parseDate start_date = some dobj →
      env.location = .ok codes →
      env.flights = .list [] →
      6 ≤ (attractionList destination_city env.attractions).length →
      ∃ parts calls,
        vacation_plan true origin_iata destination_city vacation_type adults
          children duration start_date budget_eur env = (.generated parts, calls) ∧
        parts.flight_details = "No flights found or an error occurred.") := by
  refine ⟨?_, ?_, ?_, ?_⟩
  · intro e he
    rcases he with h | h <;> · unfold search_flights; simp [h]
  · intro e h1 h2
    unfold search_flights
    simp [h1, h2]
  · intro msg l h
    exact FlightsResult.noConfusion h
  · intro origin_iata destination_city vacation_type adults children duration
      budget_eur start_date env dobj codes hp hloc hfl hlen
    have hfd : flightDetails env.flights = some "No flights found or an error occurred." := by
      rw [hfl]
      rfl
    refine ⟨_, _, vacation_plan_run origin_iata destination_city vacation_type
      adults children duration start_date budget_eur env dobj codes _ hp hloc hfd hlen, rfl⟩

/-- Witness for C4 at concrete provider errors and a concrete empty-result
run. -/
theorem c4_no_fare_degrades_gracefully_witness :
    containsSubstr "[400] NO_FARE_APPLICABLE" "NO_FARE_APPLICABLE" = true ∧
    search_flights (.raised "[400] NO_FARE_APPLICABLE") = .list [] ∧
    containsSubstr "[500] SERVER ERROR" "NO_FARE_APPLICABLE" = false ∧
    containsSubstr "[500] SERVER ERROR" "NO_COMBINABLE_FARES" = false ∧
    search_flights (.raised "[500] SERVER ERROR") =
      .errdict ("Error fetching flights: " ++ "[500] SERVER ERROR") ∧
    (∃ parts calls,
      vacation_plan true "ARN" "Lisbon" "beach" 2 0 7 "2025-10-20" 1500
        { location := .ok ⟨"LIS", "PT"⟩, flights := .list [],
          hotels := .errdict "x", weather := "sunny",
          attractions := .err "geocode failed" } = (.generated parts, calls) ∧
      parts.flight_details = "No flights found or an error occurred.") := by
  refine ⟨by decide, ?_, by decide, by decide, ?_, ?_⟩
  · exact c4_no_fare_degrades_gracefully.1 "[400] NO_FARE_APPLICABLE" (Or.inl (by decide))
  · exact c4_no_fare_degrades_gracefully.2.1 "[500] SERVER ERROR" (by decide) (by decide)
  · exact c4_no_fare_degrades_gracefully.2.2.2 "ARN" "Lisbon" "beach" 2 0 7 1500
      "2025-10-20"
      { location := .ok ⟨"LIS", "PT"⟩, flights := .list [],
        hotels := .errdict "x", weather := "sunny",
        attractions := .err "geocode failed" }
      ⟨2025, 10, 20⟩ ⟨"LIS", "PT"⟩ (by decide) rfl rfl (by decide)

/-- C7: a failed city resolution ends the run with the single composed error
message after only the resolver call — no flight, hotel, weather or
attraction wrapper is reached; and with resolution succeeding, failures of
all four adapters together still leave the run reaching generation, so no
other per-provider failure is fatal. -/
theorem c7_resolver_only_fatal_dependency :
    (∀ (origin_iata destination_city vacation_type : String)
       (adults children duration budget_eur : Nat) (start_date : String)
       (env : Env) (dobj : Date) (e : String),
      parseDate start_date = some dobj →
      env.location = .err e →
      vacation_plan true origin_iata destination_city vacation_type adults
        children duration start_date budget_eur env =
        (.errorMsg ("Could not generate plan. " ++ e),
          [.locationCall destination_city])) ∧
    (∀ (origin_iata destination_city vacation_type : String)
       (adults children duration budget_eur : Nat) (start_date : String)
       (env : Env) (dobj : Date) (codes : LocCodes) (m1 m2 m3 : String),
      parseDate start_date = some dobj →
      env.location = .ok codes →
      env.flights = .errdict m1 →
      env.hotels = .errdict m2 →
      env.attractions = .err m3 →
      ∃ parts calls,
        vacation_plan true origin_iata destination_city vacation_type adults
          children duration start_date budget_eur env =
          (.generated parts, calls)) := by
  constructor
  · intro origin_iata destination_city vacation_type adults children duration
      budget_eur start_date env dobj e hp hloc
    unfold vacation_plan
    simp only [Bool.not_true, Bool.false_eq_true, if_false, hp, hloc]
  · intro origin_iata destination_city vacation_type adults children duration
      budget_eur start_date env dobj codes m1 m2 m3 hp hloc hfl hhot hattr
    have hfd : flightDetails env.flights =
        some "No flights found or an error occurred." := by
      rw [hfl]; rfl
    have hlen : 6 ≤ (attractionList destination_city env.attractions).length := by
      rw [hattr, attractionList_err_length]
    exact ⟨_, _, vacation_plan_run origin_iata destination_city vacation_type
      adults children duration start_date budget_eur env dobj codes _ hp hloc hfd hlen⟩

/-- Witness for C7: a concrete failed resolution, and a concrete run in which
flights, hotels and attractions all fail yet the plan is generated. -/
theorem c7_resolver_only_fatal_dependency_witness :
    vacation_plan true "ARN" "Atlantis" "beach" 2 0 7 "2025-10-20" 1500
      { location := .err "Could not find location codes for Atlantis in the local database.",
        flights := .list [], hotels := .errdict "x", weather := "sunny",
        attractions := .err "y" } =
      (.errorMsg ("Could not generate plan. " ++
        "Could not find location codes for Atlantis in the local database."),
        [.locationCall "Atlantis"]) ∧
    (∃ parts calls,
      vacation_plan true "ARN" "Lisbon" "beach" 2 0 7 "2025-10-20" 1500
        { location := .ok ⟨"LIS", "PT"⟩, flights := .errdict "boom",
          hotels := .errdict "down", weather := "Error connecting to weather service: x",
          attractions := .err "geocode failed" } = (.generated parts, calls)) :=
  ⟨c7_resolver_only_fatal_dependency.1 "ARN" "Atlantis" "beach" 2 0 7 1500
      "2025-10-20" _ ⟨2025, 10, 20⟩ _ (by decide) rfl,
    c7_resolver_only_fatal_dependency.2 "ARN" "Lisbon" "beach" 2 0 7 1500
      "2025-10-20" _ ⟨2025, 10, 20⟩ ⟨"LIS", "PT"⟩ "boom" "down" "geocode failed"
      (by decide) rfl rfl rfl rfl⟩

/-- C9: for a run past a successful resolution, the one return-date string —
used both as the flight search's return date and the hotel search's
check-out — renders `start + duration` days, where adding `duration` days
advances the proleptic Gregorian ordinal by exactly `duration` (no
inclusive/exclusive off-by-one). -/
theorem c9_return_date_is_start_plus_duration
    (origin_iata destination_city vacation_type : String)
    (adults children duration : Nat) (start_date : String) (budget_eur : Nat)
    (env : Env) (dobj : Date) (codes : LocCodes) (fd : String)
    (hp : parseDate start_date = some dobj)
    (hloc : env.location = .ok codes)
    (hfd : flightDetails env.flights = some fd) :
    (vacation_plan true origin_iata destination_city vacation_type adults
      children duration start_date budget_eur env).2 =
      [.locationCall destination_city,
       .flightCall origin_iata codes.iata start_date
         (formatDate (addDays dobj duration)) adults 5,
       .hotelCall destination_city codes.country start_date
         (formatDate (addDays dobj duration)) adults children 5,
       .weatherCall destination_city,
       .attractionCall destination_city 6] ∧
    toOrdinal (addDays dobj duration) = toOrdinal dobj + duration := by
  refine ⟨vacation_plan_calls origin_iata destination_city vacation_type adults
    children duration start_date budget_eur env dobj codes fd hp hloc hfd, ?_⟩
  exact (toOrdinal_addDays (validDate_of_parseDate hp) duration).1

/-- Witness for C9 at a concrete request crossing a month boundary. -/
theorem c9_return_date_is_start_plus_duration_witness :
    (vacation_plan true "ARN" "Lisbon" "beach" 2 0 14 "2025-10-20" 1500
      { location := .ok ⟨"LIS", "PT"⟩, flights := .list [],
        hotels := .errdict "x", weather := "sunny",
        attractions := .err "y" }).2 =
      [.locationCall "Lisbon",
       .flightCall "ARN" "LIS" "2025-10-20"
         (formatDate (addDays ⟨2025, 10, 20⟩ 14)) 2 5,
       .hotelCall "Lisbon" "PT" "2025-10-20"
         (formatDate (addDays ⟨2025, 10, 20⟩ 14)) 2 0 5,
       .weatherCall "Lisbon",
       .attractionCall "Lisbon" 6] ∧
    toOrdinal (addDays ⟨2025, 10, 20⟩ 14) = toOrdinal ⟨2025, 10, 20⟩ + 14 :=
  c9_return_date_is_start_plus_duration "ARN" "Lisbon" "beach" 2 0 14
    "2025-10-20" 1500
    { location := .ok ⟨"LIS", "PT"⟩, flights := .list [],
      hotels := .errdict "x", weather := "sunny", attractions := .err "y" }
    ⟨2025, 10, 20⟩ ⟨"LIS", "PT"⟩ "No flights found or an error occurred."
    (by decide) rfl rfl

/-- The prepared table is ordered by the categorical type priority. -/
lemma prepareAirports_sorted (rows : List AirportRow) :
    (prepareAirports rows).Pairwise
      (fun a b => typeRank a.type ≤ typeRank b.type) := by
  unfold prepareAirports
  haveI : IsTotal AirportEntry (fun a b => typeRank a.type ≤ typeRank b.type) :=
    ⟨fun a b => Nat.le_total _ _⟩
  haveI : IsTrans AirportEntry (fun a b => typeRank a.type ≤ typeRank b.type) :=
    ⟨fun _ _ _ => Nat.le_trans⟩
  exact List.sorted_insertionSort _ _

/-- The reference entries of the Paris scenario: two large airports and the
city-level code (a row without a specific type). -/
def parisRows : List AirportRow :=
  [⟨some "Paris", some "CDG", some "large_airport", "FR"⟩,
   ⟨some "Paris", some "ORY", some "large_airport", "FR"⟩,
   ⟨some "Paris", some "PAR", none, "FR"⟩]

/-- C2: on the prepared table, a city with no match gets the NotFound error
dict, and a city with matches gets the first match — an entry whose type
priority is minimal among all matches (`city_code < large_airport <
medium_airport < small_airport`, anything else last); the function is pure,
so repeated calls agree. In particular Paris with `{CDG large, ORY large,
PAR city-code}` resolves to `PAR`. -/
theorem c2_resolver_priority_order :
    (∀ (rows : List AirportRow) (city_name : String),
      ((prepareAirports rows).filter
          (fun e => lowerStr e.municipality = lowerStr city_name) = [] →
        get_location_codes city_name (prepareAirports rows) =
          .err ("Could not find location codes for " ++ city_name ++
            " in the local database.")) ∧
      (∀ (m : AirportEntry) (rest : List AirportEntry),
        (prepareAirports rows).filter
          (fun e => lowerStr e.municipality = lowerStr city_name) = m :: rest →
        get_location_codes city_name (prepareAirports rows) =
          .ok ⟨m.iata_code, m.iso_country⟩ ∧
        ∀ e ∈ (prepareAirports rows).filter
            (fun e => lowerStr e.municipality = lowerStr city_name),
          typeRank m.type ≤ typeRank e.type)) ∧
    get_location_codes "Paris" (prepareAirports parisRows) = .ok ⟨"PAR", "FR"⟩ := by
  constructor
  · intro rows city_name
    constructor
    · intro hnil
      simp only [get_location_codes]
      rw [hnil]
    · intro m rest hcons
      constructor
      · simp only [get_location_codes]
        rw [hcons]
      · have hf : ((prepareAirports rows).filter
            (fun e => lowerStr e.municipality = lowerStr city_name)).Pairwise
            (fun a b => typeRank a.type ≤ typeRank b.type) :=
          (prepareAirports_sorted rows).filter _
        rw [hcons] at hf
        intro e he
        rw [hcons] at he
        rcases List.mem_cons.mp he with rfl | hmem
        · exact Nat.le_refl _
        · exact (List.pairwise_cons.mp hf).1 e hmem
  · decide

/-- Witness for C2: the Paris table has a non-empty match list headed by the
city-code entry, and the resolver returns it. -/
theorem c2_resolver_priority_order_witness :
    (prepareAirports parisRows).filter
      (fun e => lowerStr e.municipality = lowerStr "Paris") =
      ⟨"Paris", "PAR", "city_code", "FR"⟩ ::
        [⟨"Paris", "CDG", "large_airport", "FR"⟩,
         ⟨"Paris", "ORY", "large_airport", "FR"⟩] ∧
    get_location_codes "Paris" (prepareAirports parisRows) = .ok ⟨"PAR", "FR"⟩ ∧
    ∀ e ∈ (prepareAirports parisRows).filter
        (fun e => lowerStr e.municipality = lowerStr "Paris"),
      typeRank (⟨"Paris", "PAR", "city_code", "FR"⟩ : AirportEntry).type ≤
        typeRank e.type :=
  ⟨by decide,
    ((c2_resolver_priority_order.1 parisRows "Paris").2
      ⟨"Paris", "PAR", "city_code", "FR"⟩
      [⟨"Paris", "CDG", "large_airport", "FR"⟩,
       ⟨"Paris", "ORY", "large_airport", "FR"⟩] (by decide)).1,
    ((c2_resolver_priority_order.1 parisRows "Paris").2
      ⟨"Paris", "PAR", "city_code", "FR"⟩
      [⟨"Paris", "CDG", "large_airport", "FR"⟩,
       ⟨"Paris", "ORY", "large_airport", "FR"⟩] (by decide)).2⟩

/-- First hotel candidate of the C3 scenario. -/
def c3HotelA : RawHotel :=
  ⟨"h1", "Hotel A", "1 A Street", "Paris", "FR", 8, 120, "pA", "wA", "dA", 4⟩

/-- Second hotel candidate of the C3 scenario. -/
def c3HotelB : RawHotel :=
  ⟨"h2", "Hotel B", "2 B Street", "Paris", "FR", 7, 80, "pB", "wB", "dB", 3⟩

/-- C3 counterexample: when both sampled candidates resolve to the same rate,
the returned list keeps both at equal prices, so it is not sorted *strictly*
ascending (Python `sorted` is non-strict). -/
theorem c3_equal_prices_not_strict :
    (get_hotels [c3HotelA, c3HotelB] (fun _ => some 100) 5 "EUR").1 =
      .list [mkHotelData c3HotelA 100 "EUR", mkHotelData c3HotelB 100 "EUR"] ∧
    ¬ List.Pairwise (fun a b : HotelData => a.price < b.price)
        [mkHotelData c3HotelA 100 "EUR", mkHotelData c3HotelB 100 "EUR"] := by
  constructor
  · decide
  · intro hpair
    have h := (List.pairwise_cons.mp hpair).1 (mkHotelData c3HotelB 100 "EUR")
      (by simp)
    simp [mkHotelData] at h

/-- C3 (amended): `get_hotels` yields the no-hotels error dict exactly when
the initial city search is empty; the rate requests cover exactly the first
three candidates of the initial result (sampling precedes any rate lookup);
and the returned list is sorted non-strictly ascending by price, holds at
most `top_n` hotels, and contains only first-three candidates whose rate
resolved — candidates without a resolvable rate are dropped with no error. -/
theorem c3_hotels_sample_sort_truncate (hotels_data : List RawHotel)
    (rate : String → Option Nat) (top_n : Nat) (currency : String) :
    ((get_hotels hotels_data rate top_n currency).1 =
        .errdict "No hotels found for the initial search." ↔ hotels_data = []) ∧
    (get_hotels hotels_data rate top_n currency).2 =
      (if hotels_data = [] then [] else (hotels_data.take 3).map (fun h => h.id)) ∧
    (∀ l, (get_hotels hotels_data rate top_n currency).1 = .list l →
      l.length ≤ top_n ∧
      List.Pairwise (fun a b : HotelData => a.price ≤ b.price) l ∧
      ∀ hd ∈ l, ∃ h ∈ hotels_data.take 3,
        rate h.id = some hd.price ∧ hd = mkHotelData h hd.price currency) := by
  by_cases hnil : hotels_data = []
  · subst hnil
    refine ⟨by simp [get_hotels], by simp [get_hotels], ?_⟩
    intro l hl
    simp only [get_hotels, if_pos rfl] at hl
    exact absurd hl (by simp)
  · have hval : get_hotels hotels_data rate top_n currency =
        (.list ((List.insertionSort (fun a b => a.price ≤ b.price)
            ((hotels_data.take 3).filterMap (fun h =>
              (rate h.id).map (fun p => mkHotelData h p currency)))).take top_n),
          (hotels_data.take 3).map (fun h => h.id)) := by
      simp only [get_hotels, if_neg hnil]
    rw [hval]
    refine ⟨by simp [hnil], by rw [if_neg hnil], ?_⟩
    intro l hl
    dsimp only at hl
    injection hl.symm with hleq
    subst hleq
    refine ⟨?_, ?_, ?_⟩
    · rw [List.length_take]
      exact Nat.min_le_left _ _
    · haveI : IsTotal HotelData (fun a b => a.price ≤ b.price) :=
        ⟨fun a b => Nat.le_total _ _⟩
      haveI : IsTrans HotelData (fun a b => a.price ≤ b.price) :=
        ⟨fun _ _ _ => Nat.le_trans⟩
      exact List.Pairwise.sublist (List.take_sublist _ _)
        (List.sorted_insertionSort _ _)
    · intro hd hmem
      have hmem2 : hd ∈ List.insertionSort (fun a b => a.price ≤ b.price)
          ((hotels_data.take 3).filterMap (fun h =>
            (rate h.id).map (fun p => mkHotelData h p currency))) :=
        List.take_subset _ _ hmem
      have hmem3 : hd ∈ (hotels_data.take 3).filterMap (fun h =>
          (rate h.id).map (fun p => mkHotelData h p currency)) :=
        (List.perm_insertionSort _ _).mem_iff.mp hmem2
      obtain ⟨h, hh, hmk⟩ := List.mem_filterMap.mp hmem3
      obtain ⟨p, hp, hpe⟩ := Option.map_eq_some'.mp hmk
      have hprice : hd.price = p := by rw [← hpe]; rfl
      refine ⟨h, hh, ?_, ?_⟩
      · rw [hprice]; exact hp
      · rw [hprice, hpe]

/-- Witness for C3 at a concrete two-candidate search with distinct rates. -/
theorem c3_hotels_sample_sort_truncate_witness :
    ((get_hotels [c3HotelA, c3HotelB]
        (fun h => if h = "h1" then some 200 else some 150) 5 "EUR").1 =
      .list [mkHotelData c3HotelB 150 "EUR", mkHotelData c3HotelA 200 "EUR"]) ∧
    ([mkHotelData c3HotelB 150 "EUR", mkHotelData c3HotelA 200 "EUR"].length ≤ 5 ∧
      List.Pairwise (fun a b : HotelData => a.price ≤ b.price)
        [mkHotelData c3HotelB 150 "EUR", mkHotelData c3HotelA 200 "EUR"] ∧
      ∀ hd ∈ [mkHotelData c3HotelB 150 "EUR", mkHotelData c3HotelA 200 "EUR"],
        ∃ h ∈ [c3HotelA, c3HotelB].take 3,
          (fun h : String => if h = "h1" then some 200 else some 150) h.id =
            some hd.price ∧ hd = mkHotelData h hd.price "EUR") :=
  ⟨by decide,
    (c3_hotels_sample_sort_truncate [c3HotelA, c3HotelB]
      (fun h => if h = "h1" then some 200 else some 150) 5 "EUR").2.2
      [mkHotelData c3HotelB 150 "EUR", mkHotelData c3HotelA 200 "EUR"]
      (by decide)⟩

/-- Specification view of the loop: keep the first reading of each date not
in `seen`, stopping after `n` kept readings. -/
def collectFirst : List WeatherEntry → List String → Nat → List WeatherEntry
  | _, _, 0 => []
  | [], _, _ + 1 => []
  | e :: rest, seen, n + 1 =>
    if entryDate e ∈ seen then collectFirst rest seen (n + 1)
    else e :: collectFirst rest (entryDate e :: seen) n

/-- First occurrence of each date in feed order, skipping `seen`. -/
def dedupFirst : List String → List String → List String
  | [], _ => []
  | d :: rest, seen =>
    if d ∈ seen then dedupFirst rest seen
    else d :: dedupFirst rest (d :: seen)

lemma summarizeAux_eq_collectFirst :
    ∀ (feed : List WeatherEntry) (seen : List String) (acc : List WeatherEntry),
      acc.length < 3 →
      summarizeAux feed seen acc = acc ++ collectFirst feed seen (3 - acc.length)
  | [], seen, acc, hlen => by
    have h3 : 3 - acc.length = (2 - acc.length) + 1 := by omega
    rw [h3]
    simp [summarizeAux, collectFirst]
  | e :: rest, seen, acc, hlen => by
    by_cases hmem : entryDate e ∈ seen
    · have h3 : 3 - acc.length = (2 - acc.length) + 1 := by omega
      rw [summarizeAux, if_pos hmem]
      dsimp only
      rw [if_neg (by omega)]
      rw [summarizeAux_eq_collectFirst rest seen acc hlen, h3, collectFirst,
        if_pos hmem, ← h3]
    · by_cases h2 : acc.length = 2
      · have h3 : 3 - acc.length = 0 + 1 := by omega
        rw [summarizeAux, if_neg hmem]
        dsimp only
        rw [if_pos (by simp [h2])]
        rw [h3, collectFirst, if_neg hmem]
        simp [collectFirst]
      · have h3 : 3 - acc.length = (2 - acc.length - 1) + 1 + 1 := by omega
        rw [summarizeAux, if_neg hmem]
        dsimp only
        rw [if_neg (by simp; omega)]
        rw [summarizeAux_eq_collectFirst rest (entryDate e :: seen) (acc ++ [e])
          (by simp; omega)]
        rw [h3, collectFirst, if_neg hmem]
        have h4 : 3 - (acc ++ [e]).length = 2 - acc.length - 1 + 1 := by
          simp; omega
        rw [h4]
        simp

lemma collectFirst_map_date :
    ∀ (feed : List WeatherEntry) (seen : List String) (n : Nat),
      (collectFirst feed seen n).map entryDate =
        (dedupFirst (feed.map entryDate) seen).take n
  | [], seen, n => by
    cases n <;> simp [collectFirst, dedupFirst]
  | e :: rest, seen, n => by
    by_cases hmem : entryDate e ∈ seen
    · cases n with
      | zero => simp [collectFirst, dedupFirst, hmem]
      | succ k =>
        rw [collectFirst, if_pos hmem]
        simp only [List.map_cons, dedupFirst, if_pos hmem]
        exact collectFirst_map_date rest seen (k + 1)
    · cases n with
      | zero => simp [collectFirst]
      | succ k =>
        rw [collectFirst, if_neg hmem]
        simp only [List.map_cons, dedupFirst, if_neg hmem, List.take_succ_cons]
        rw [collectFirst_map_date rest (entryDate e :: seen) k]

lemma dedupFirst_nodup :
    ∀ (l seen : List String),
      (dedupFirst l seen).Nodup ∧ ∀ d ∈ dedupFirst l seen, d ∉ seen
  | [], seen => by simp [dedupFirst]
  | d :: rest, seen => by
    by_cases hmem : d ∈ seen
    · rw [dedupFirst, if_pos hmem]
      exact dedupFirst_nodup rest seen
    · rw [dedupFirst, if_neg hmem]
      obtain ⟨hnd, hout⟩ := dedupFirst_nodup rest (d :: seen)
      refine ⟨List.nodup_cons.mpr ⟨?_, hnd⟩, ?_⟩
      · intro hdin
        exact (hout d hdin) (List.mem_cons_self d _)
      · intro x hx
        rcases List.mem_cons.mp hx with rfl | hx2
        · exact hmem
        · intro hxs
          exact (hout x hx2) (List.mem_cons_of_mem _ hxs)

lemma collectFirst_first_occurrence :
    ∀ (feed : List WeatherEntry) (seen : List String) (n : Nat)
      (e : WeatherEntry), e ∈ collectFirst feed seen n →
      entryDate e ∉ seen ∧
        feed.find? (fun x => decide (entryDate x = entryDate e)) = some e
  | [], _, n, e => by cases n <;> simp [collectFirst]
  | hd :: rest, seen, n, e => by
    cases n with
    | zero => simp [collectFirst]
    | succ k =>
      by_cases hmem : entryDate hd ∈ seen
      · rw [collectFirst, if_pos hmem]
        intro hin
        obtain ⟨hnot, hfind⟩ :=
          collectFirst_first_occurrence rest seen (k + 1) e hin
        have hne : entryDate hd ≠ entryDate e := fun hEq => hnot (hEq ▸ hmem)
        refine ⟨hnot, ?_⟩
        rw [List.find?_cons_of_neg _ (by simp [hne]), hfind]
      · rw [collectFirst, if_neg hmem]
        intro hin
        rcases List.mem_cons.mp hin with rfl | htail
        · exact ⟨hmem, by rw [List.find?_cons_of_pos _ (by simp)]⟩
        · obtain ⟨hnot, hfind⟩ :=
            collectFirst_first_occurrence rest (entryDate hd :: seen) k e htail
          have hne : entryDate hd ≠ entryDate e := by
            intro hEq
            exact hnot (hEq ▸ List.mem_cons_self _ _)
          refine ⟨fun hs => hnot (List.mem_cons_of_mem _ hs), ?_⟩
          rw [List.find?_cons_of_neg _ (by simp [hne]), hfind]

/-- C6: the rendered summary keeps at most three readings, one per distinct
calendar date in first-seen feed order, and each kept reading is the first
of the feed carrying its date. -/
theorem c6_weather_summary_shape (feed : List WeatherEntry) :
    (forecastSummary feed).length ≤ 3 ∧
    ((forecastSummary feed).map entryDate).Nodup ∧
    (forecastSummary feed).map entryDate =
      (dedupFirst (feed.map entryDate) []).take 3 ∧
    ∀ e ∈ forecastSummary feed,
      feed.find? (fun x => decide (entryDate x = entryDate e)) = some e := by
  have hrun : forecastSummary feed = collectFirst feed [] 3 := by
    unfold forecastSummary
    rw [summarizeAux_eq_collectFirst feed [] [] (by simp)]
    simp
  have hmap := collectFirst_map_date feed [] 3
  refine ⟨?_, ?_, ?_, ?_⟩
  · have := congrArg List.length hmap
    rw [List.length_map] at this
    rw [hrun, this]
    exact List.length_take_le _ _
  · rw [hrun, hmap]
    exact List.Nodup.sublist (List.take_sublist _ _) (dedupFirst_nodup _ _).1
  · rw [hrun, hmap]
  · intro e he
    rw [hrun] at he
    exact (collectFirst_first_occurrence feed [] 3 e he).2

/-- Witness for C6 at a concrete sub-daily four-date feed with a duplicated
first date. -/
theorem c6_weather_summary_shape_witness :
    (forecastSummary
      [⟨"2025-10-20 09:00:00", 150, "clear sky"⟩,
       ⟨"2025-10-20 12:00:00", 180, "few clouds"⟩,
       ⟨"2025-10-21 09:00:00", 140, "rain"⟩,
       ⟨"2025-10-22 09:00:00", 130, "rain"⟩,
       ⟨"2025-10-23 09:00:00", 120, "snow"⟩]).length ≤ 3 ∧
    ((forecastSummary
      [⟨"2025-10-20 09:00:00", 150, "clear sky"⟩,
       ⟨"2025-10-20 12:00:00", 180, "few clouds"⟩,
       ⟨"2025-10-21 09:00:00", 140, "rain"⟩,
       ⟨"2025-10-22 09:00:00", 130, "rain"⟩,
       ⟨"2025-10-23 09:00:00", 120, "snow"⟩]).map entryDate).Nodup ∧
    (forecastSummary
      [⟨"2025-10-20 09:00:00", 150, "clear sky"⟩,
       ⟨"2025-10-20 12:00:00", 180, "few clouds"⟩,
       ⟨"2025-10-21 09:00:00", 140, "rain"⟩,
       ⟨"2025-10-22 09:00:00", 130, "rain"⟩,
       ⟨"2025-10-23 09:00:00", 120, "snow"⟩]).map entryDate =
      (dedupFirst
        (([⟨"2025-10-20 09:00:00", 150, "clear sky"⟩,
           ⟨"2025-10-20 12:00:00", 180, "few clouds"⟩,
           ⟨"2025-10-21 09:00:00", 140, "rain"⟩,
           ⟨"2025-10-22 09:00:00", 130, "rain"⟩,
           ⟨"2025-10-23 09:00:00", 120, "snow"⟩] :
            List WeatherEntry).map entryDate) []).take 3 ∧
    ∀ e ∈ forecastSummary
      [⟨"2025-10-20 09:00:00", 150, "clear sky"⟩,
       ⟨"2025-10-20 12:00:00", 180, "few clouds"⟩,
       ⟨"2025-10-21 09:00:00", 140, "rain"⟩,
       ⟨"2025-10-22 09:00:00", 130, "rain"⟩,
       ⟨"2025-10-23 09:00:00", 120, "snow"⟩],
      List.find? (fun x => decide (entryDate x = entryDate e))
        [⟨"2025-10-20 09:00:00", 150, "clear sky"⟩,
         ⟨"2025-10-20 12:00:00", 180, "few clouds"⟩,
         ⟨"2025-10-21 09:00:00", 140, "rain"⟩,
         ⟨"2025-10-22 09:00:00", 130, "rain"⟩,
         ⟨"2025-10-23 09:00:00", 120, "snow"⟩] = some e :=
  c6_weather_summary_shape
    [⟨"2025-10-20 09:00:00", 150, "clear sky"⟩,
     ⟨"2025-10-20 12:00:00", 180, "few clouds"⟩,
     ⟨"2025-10-21 09:00:00", 140, "rain"⟩,
     ⟨"2025-10-22 09:00:00", 130, "rain"⟩,
     ⟨"2025-10-23 09:00:00", 120, "snow"⟩]
